import Mathlib

/-!
Shallow embedding of the d1-repl tool (src/mod.ts): startup argument
validation, the REPL line handler with its dot-commands, SQL synthesis for
the table and schema helpers, package-manager launcher selection, the
subprocess invocation built by the executor, and the rendering of the
parsed JSON response.

The JavaScript string builtins the source relies on (trim, toLowerCase,
split with a one-character separator, startsWith) are modelled by
structural recursion on the character list of the string, so that every
definition evaluates inside the kernel.
-/

/-- Whitespace test used by the model of String.prototype.trim (the source
lines only ever carry ASCII whitespace). -/
def isWsChar (c : Char) : Bool :=
  c == ' ' || c == '\t' || c == '\n' || c == '\r'

/-- Model of JavaScript String.prototype.trim: drop whitespace from both
ends. -/
def jsTrim (s : String) : String :=
  String.mk (((s.data.dropWhile isWsChar).reverse.dropWhile isWsChar).reverse)

/-- ASCII lowercasing of one character, as String.prototype.toLowerCase
acts on the dot-command alphabet. -/
def lowerChar (c : Char) : Char :=
  if 65 ≤ c.toNat ∧ c.toNat ≤ 90 then Char.ofNat (c.toNat + 32) else c

/-- Model of JavaScript String.prototype.toLowerCase. -/
def jsToLower (s : String) : String :=
  String.mk (s.data.map lowerChar)

/-- Character-list core of String.prototype.startsWith. -/
def startsWithL : List Char → List Char → Bool
  | _, [] => true
  | [], _ :: _ => false
  | c :: cs, p :: ps => c == p && startsWithL cs ps

/-- Model of JavaScript String.prototype.startsWith. -/
def jsStartsWith (s pat : String) : Bool :=
  startsWithL s.data pat.data

/-- Accumulating core of String.prototype.split(" "): splitting on every
single space character, keeping empty fragments, and producing one (empty)
fragment for the empty string, exactly as JavaScript does. -/
def splitSpAux : List Char → List Char → List String
  | [], acc => [String.mk acc.reverse]
  | c :: cs, acc =>
    if c == ' ' then String.mk acc.reverse :: splitSpAux cs []
    else splitSpAux cs (c :: acc)

/-- Model of JavaScript s.split(" "). -/
def jsSplitSpace (s : String) : List String :=
  splitSpAux s.data []

/-- JSON scalar values as they appear in row and meta mappings; the tool
never inspects them, it only passes them through to the display. -/
inductive JVal
  | str (s : String)
  | num (n : Int)
  | boolean (b : Bool)
  | null
deriving DecidableEq, Repr

/-- One returned row: an ordered key-value mapping. -/
abbrev Row := List (String × JVal)

/-- The meta mapping of a result batch. -/
abbrev Meta := List (String × JVal)

/-- Embedding of the D1Result interface of src/mod.ts (fields in source
order: meta, results, success); results and meta are optional because the
JSON cast in the source performs no validation and the code guards both
fields with truthiness checks. -/
structure D1Result where
  meta : Option Meta
  results : Option (List Row)
  success : Bool
deriving DecidableEq, Repr

/-- Reasons executeSQL can throw before reaching the result loop: a spawn
error, a nonzero (or null) exit status, or a JSON.parse failure. -/
inductive FailReason
  | spawnError (e : String)
  | nonzeroStatus (status : Option Int) (stdout : String)
  | parseError (stdout : String)
deriving DecidableEq, Repr

/-- Console output events produced by the tool: log lines to stdout,
row dumps (JSON.stringify of the results array), meta lines, error lines
to stderr, the failure-branch meta line, and the caught execution failure
line. -/
inductive Ev
  | log (s : String)
  | logRows (rows : List Row)
  | logMeta (m : Meta)
  | errLog (s : String)
  | errMeta (m : Option Meta)
  | execFailure (r : FailReason)
deriving DecidableEq, Repr

/-- The fixed SQL synthesized by the .tables command (src/mod.ts showTables). -/
def tablesSQL : String :=
  "SELECT name FROM sqlite_master WHERE type='table' AND name NOT LIKE 'sqlite_%' ORDER BY name;"

/-- The all-tables schema query synthesized by .schema with no argument
(src/mod.ts showSchema, else branch). -/
def schemaAllSQL : String :=
  "SELECT name, sql FROM sqlite_master WHERE type='table' AND name NOT LIKE 'sqlite_%' ORDER BY name;"

/-- The single-table schema query of .schema name (src/mod.ts showSchema,
then branch): literal substring substitution of the table name. -/
def schemaTableSQL (t : String) : String :=
  "SELECT sql FROM sqlite_master WHERE type='table' AND name='" ++ t ++ "';"

/-- Embedding of showSchema: the argument is trimmed.split(" ")[1], which in
JavaScript may be undefined (no second token, modelled none) or any string
including the empty one; the source tests it for truthiness, so none and
the empty string both select the all-tables query. -/
def showSchema (t? : Option String) : String :=
  match t? with
  | some t => if t = "" then schemaAllSQL else schemaTableSQL t
  | none => schemaAllSQL

/-- What the line handler decides to do with one submitted line
(src/mod.ts setupEventHandlers, the line event): redisplay the prompt on a
blank line, exit the session, print the help text, or execute a SQL string
(user SQL or a synthesized dot-command query). -/
inductive ReplCmd
  | promptOnly
  | exit
  | help
  | execute (sql : String)
deriving DecidableEq, Repr

/-- The dispatch of src/mod.ts setupEventHandlers applied to the already
trimmed line, mirroring the source's if-chain in order. -/
def handleTrimmed (trimmed : String) : ReplCmd :=
  if trimmed = "" then .promptOnly
  else if jsToLower trimmed = ".exit" ∨ jsToLower trimmed = ".quit" then .exit
  else if jsToLower trimmed = ".help" then .help
  else if jsToLower trimmed = ".tables" then .execute tablesSQL
  else if jsStartsWith (jsToLower trimmed) ".schema" = true then
    .execute (showSchema ((jsSplitSpace trimmed).get? 1))
  else .execute trimmed

/-- The full line handler: the source computes input.trim() first and every
later test reads only the trimmed string. -/
def handleLine (input : String) : ReplCmd :=
  handleTrimmed (jsTrim input)

/-- Outcome of the startup section of src/mod.ts (lines 28-62): help text
and exit 0, a fatal diagnostic and exit 1 for a missing database name or
for conflicting locality flags, or a ready session carrying the database
name and the flags array built afterwards. -/
inductive StartOutcome
  | helpShown
  | missingName
  | flagConflict
  | ready (db : String) (flags : List String)
deriving DecidableEq, Repr

/-- The flags array of src/mod.ts lines 59-62: push "--local" when the
local flag is set, then "--remote" when the remote flag is set. -/
def buildFlags (localF remoteF : Bool) : List String :=
  (if localF = true then ["--local"] else [])
    ++ (if remoteF = true then ["--remote"] else [])

/-- Embedding of the startup section: the help check runs first; then the
first positional is taken as database name, where an absent first
positional and an empty-string one are both falsy; then the conflict
check; otherwise the session is ready. -/
def startup (helpF localF remoteF : Bool) (positionals : List String) : StartOutcome :=
  if helpF = true then .helpShown
  else match positionals with
    | [] => .missingName
    | db :: _ =>
      if db = "" then .missingName
      else if localF = true ∧ remoteF = true then .flagConflict
      else .ready db (buildFlags localF remoteF)

/-- Exit code of each terminating startup outcome (process.exit argument
in the source); a ready session does not exit at startup. -/
def startExitCode : StartOutcome → Option Nat
  | .helpShown => some 0
  | .missingName => some 1
  | .flagConflict => some 1
  | .ready _ _ => none

/-- The usage text printed by the help branch (src/mod.ts lines 30-42). -/
def usageText : String :=
  "\nUsage: sqlite-repl.ts [database-name] [options]\n\nOptions:\n  -l, --local     Use local database\n  -r, --remote    Use remote database\n  -h, --help      Show this help message\n\nExamples:\n  sqlite-repl.ts my-database --local\n  sqlite-repl.ts my-database --remote\n  sqlite-repl.ts --help\n"

/-- The message each terminating startup outcome prints before exiting. -/
def startMessage : StartOutcome → Option String
  | .helpShown => some usageText
  | .missingName => some "Database name is required"
  | .flagConflict => some "Cannot use both local and remote flags"
  | .ready _ _ => none

/-- The five lockfile names probed in each directory, in the order the
source tests them (src/mod.ts findPackageManager). -/
def lockfileNames : List String :=
  ["pnpm-lock.yaml", "yarn.lock", "bun.lock", "package-lock.json", "deno.lock"]

/-- Embedding of findPackageManager: the upward walk from the working
directory is the list of directories the while loop visits in order (the
loop stops when dirname(dir) = dir), and the filesystem is the predicate
has dir file modelling existsSync(join(dir, file)). Within one directory
the five lockfiles are tested in source order; when none matches the walk
moves to the parent; when the walk ends the fallback is "npx". -/
def findPackageManager (has : String → String → Bool) : List String → String
  | [] => "npx"
  | d :: rest =>
    if has d "pnpm-lock.yaml" = true then "pnpm"
    else if has d "yarn.lock" = true then "yarn"
    else if has d "bun.lock" = true then "bun"
    else if has d "package-lock.json" = true then "npm"
    else if has d "deno.lock" = true then "deno"
    else findPackageManager has rest

/-- The launcher part of the invocation (src/mod.ts lines 164-183): when
the npm_config_user_agent environment variable is set the external tool is
invoked directly; otherwise the package-manager name chosen by the lockfile
walk selects the launcher, every unrecognized name (including "npm" and
the fallback "npx") mapping to the npx launcher. -/
def launcherArgs (inPM : Bool) (pm : String) : List String :=
  if inPM = true then ["wrangler"]
  else if pm = "deno" then ["deno", "run", "-A", "npm:wrangler"]
  else if pm = "pnpm" then ["pnpm", "wrangler"]
  else if pm = "yarn" then ["yarn", "wrangler"]
  else if pm = "bun" then ["bun", "wrangler"]
  else ["npx", "wrangler"]

/-- The full argument vector built by executeSQL (src/mod.ts lines
164-193): the launcher part followed by the pushes of line 185-193. The
source then shifts off the first element as the command and passes the
rest to spawnSync; the claims speak about the whole invocation. -/
def executeArgs (inPM : Bool) (pm db : String) (localF remoteF : Bool) (sql : String) : List String :=
  launcherArgs inPM pm
    ++ ["d1", "execute", db]
    ++ buildFlags localF remoteF
    ++ ["--json", "--command", sql]

/-- Embedding of displayResults (src/mod.ts lines 239-246). -/
def displayResults (results : List Row) : List Ev :=
  if results.length = 0 then [.log "No results"]
  else [.logRows results]

/-- Rendering of one result batch (the body of the for loop, src/mod.ts
lines 218-233): on success a Success line, then the row dump or the
no-results notice (the results field must be present and non-empty to be
dumped), then the meta line only when the meta mapping is present and
non-empty; on failure the Query failed line and the meta line. -/
def renderItem (item : D1Result) : List Ev :=
  if item.success = true then
    [.log "Success"]
      ++ (match item.results with
          | some rs => if rs.length > 0 then displayResults rs
                       else [.log "No results returned"]
          | none => [.log "No results returned"])
      ++ (match item.meta with
          | some m => if m.length > 0 then [.logMeta m] else []
          | none => [])
  else [.errLog "Query failed", .errMeta item.meta]

/-- The for loop over the parsed response array, in array order. -/
def renderAll : List D1Result → List Ev
  | [] => []
  | item :: rest => renderItem item ++ renderAll rest

/-- What spawnSync returned: an optional spawn-level error, the exit
status (null when the child was killed or never ran), and the captured
standard output. -/
structure SpawnResult where
  error : Option String
  status : Option Int
  stdout : String

/-- The try block of executeSQL after the spawn (src/mod.ts lines
206-236) together with its catch: a spawn error is thrown and caught, a
status other than 0 is thrown and caught with the captured stdout in the
message, a JSON.parse failure (the parse parameter returning none) is
caught, and otherwise the parsed batches are rendered. Every caught error
becomes the single Execution failed line. -/
def runSpawn (parse : String → Option (List D1Result)) (r : SpawnResult) : List Ev :=
  match r.error with
  | some e => [.execFailure (.spawnError e)]
  | none =>
    if r.status = some 0 then
      match parse r.stdout with
      | some items => renderAll items
      | none => [.execFailure (.parseError r.stdout)]
    else [.execFailure (.nonzeroStatus r.status r.stdout)]

/-- All output of one executeSQL call: the Executing echo, the DEBUG
command echo when the DEBUG environment variable is set, then the
post-spawn events. -/
def executeSQLEvents (debugF inPM : Bool) (pm db : String) (localF remoteF : Bool)
    (parse : String → Option (List D1Result)) (r : SpawnResult) (sql : String) : List Ev :=
  [.log ("\nExecuting: " ++ sql)]
    ++ (if debugF = true then
          [.log ("Using command: " ++ String.intercalate " " (executeArgs inPM pm db localF remoteF sql))]
        else [])
    ++ runSpawn parse r

/-- The help text printed by the .help dot-command (src/mod.ts showHelp). -/
def replHelpText : String :=
  "\nSQLite REPL Commands:\n  .help     - Show this help message\n  .exit     - Exit the REPL\n  .quit     - Exit the REPL\n  .tables   - List all tables\n  .schema   - Show all table schemas\n  .schema table_name - Show schema for specific table\n\nSQL Commands:\n  SELECT * FROM table_name;\n  INSERT INTO table_name (col1, col2) VALUES ('val1', 'val2');\n  UPDATE table_name SET col1 = 'new_val' WHERE condition;\n  DELETE FROM table_name WHERE condition;\n  CREATE TABLE table_name (col1 TEXT, col2 INTEGER);\n  DROP TABLE table_name;\n\nExamples:\n  SELECT * FROM locations LIMIT 5;\n  SELECT COUNT(*) FROM locations;\n  .tables\n  .schema\n  .schema locations\n    "

/-- Result of one pass through the line handler: either the session
terminates (the exit branch calls process.exit), or control returns to the
prompt (every other branch ends in rl.prompt()) after emitting the listed
output. -/
inductive StepOut
  | terminate
  | prompt (events : List Ev)
deriving DecidableEq, Repr

/-- One full line-event step: dispatch the line, run the executor when a
SQL string is to be executed (the spawn outcome r and the JSON parser are
inputs of the model), and return to the prompt in every branch except
exit/quit. -/
def lineStep (debugF inPM : Bool) (pm db : String) (localF remoteF : Bool)
    (parse : String → Option (List D1Result)) (r : SpawnResult) (input : String) : StepOut :=
  match handleLine input with
  | .promptOnly => .prompt []
  | .exit => .terminate
  | .help => .prompt [.log replHelpText]
  | .execute sql => .prompt (executeSQLEvents debugF inPM pm db localF remoteF parse r sql)

/-- Test for the SQL quote character (code point 39). -/
def isQuoteChar (c : Char) : Bool :=
  c.toNat == 39

/-- Standard SQL escaping of a name for use inside a quoted string literal:
every quote character is doubled. The source performs no such escaping;
this definition exists only to compare the synthesized query against the
correctly escaped one. -/
def sqlEscapeChars : List Char → List Char
  | [] => []
  | c :: cs =>
    if isQuoteChar c = true then c :: c :: sqlEscapeChars cs
    else c :: sqlEscapeChars cs

/-- String version of the correct escaping. -/
def sqlQuoteName (t : String) : String :=
  String.mk (sqlEscapeChars t.data)

/-- Number of quote characters in a string. -/
def quoteCount (t : String) : Nat :=
  t.data.countP isQuoteChar

theorem sqlEscapeChars_length (l : List Char) :
    (sqlEscapeChars l).length = l.length + l.countP isQuoteChar := by
  induction l with
  | nil => rfl
  | cons c cs ih =>
    by_cases h : isQuoteChar c = true <;>
      simp [sqlEscapeChars, h, ih, List.countP_cons] <;> omega

theorem sqlQuoteName_length (t : String) :
    (sqlQuoteName t).length = t.length + quoteCount t := by
  have h1 : (sqlQuoteName t).length = (sqlEscapeChars t.data).length := rfl
  rw [h1, sqlEscapeChars_length]
  rfl

theorem getLast?_append_triple (xs : List String) (a b c : String) :
    (xs ++ [a, b, c]).getLast? = some c := by
  rw [List.getLast?_append_cons]
  rfl

/-- C1: for every submitted SQL string, the invocation built by executeSQL
is, after the launcher prefix, exactly d1, execute, the database name,
then the locality flag when one was given (at most one in any session that
passed startup validation), then --json, --command, and the SQL text
verbatim as the final argument. -/
theorem c1_invocation_args (inPM helpF localF remoteF : Bool) (pm db sql : String) :
  (¬ (localF = true ∧ remoteF = true) →
     executeArgs inPM pm db localF remoteF sql =
       launcherArgs inPM pm ++ ["d1", "execute", db]
         ++ (if localF = true then ["--local"]
             else if remoteF = true then ["--remote"] else [])
         ++ ["--json", "--command", sql]
     ∧ (buildFlags localF remoteF).length ≤ 1
     ∧ (executeArgs inPM pm db localF remoteF sql).getLast? = some sql)
  ∧ (∀ pos db0 flgs, startup helpF localF remoteF pos = StartOutcome.ready db0 flgs →
       ¬ (localF = true ∧ remoteF = true)) := by
  constructor
  · intro h
    refine ⟨?_, ?_, ?_⟩
    · cases localF with
      | true =>
        cases remoteF with
        | true => exact absurd ⟨rfl, rfl⟩ h
        | false => simp [executeArgs, buildFlags]
      | false => cases remoteF <;> simp [executeArgs, buildFlags]
    · cases localF with
      | true =>
        cases remoteF with
        | true => exact absurd ⟨rfl, rfl⟩ h
        | false => decide
      | false => cases remoteF <;> decide
    · unfold executeArgs
      rw [List.getLast?_append_cons]
      rfl
  · rintro pos db0 flgs hr ⟨hl, hrem⟩
    subst hl; subst hrem
    cases helpF with
    | true => simp [startup] at hr
    | false =>
      cases pos with
      | nil => simp [startup] at hr
      | cons d ds =>
        by_cases hd : d = "" <;> simp [startup, hd] at hr

/-- Witness for C1 at a concrete session: local flag only, pnpm launcher. -/
theorem c1_invocation_args_witness :
  ¬ ((true : Bool) = true ∧ (false : Bool) = true)
  ∧ executeArgs false "pnpm" "mydb" true false "SELECT 1;" =
      launcherArgs false "pnpm" ++ ["d1", "execute", "mydb"]
        ++ (if (true : Bool) = true then ["--local"]
            else if (false : Bool) = true then ["--remote"] else [])
        ++ ["--json", "--command", "SELECT 1;"] := by
  refine ⟨by decide, ?_⟩
  exact ((c1_invocation_args false false true false "pnpm" "mydb" "SELECT 1;").1 (by decide)).1

/-- C2: every failing execution attempt (spawn error, nonzero or null exit
status, or unparseable standard output) is caught and reported as the
single execution failure event, and the line step never terminates the
session on such an attempt: control returns to the prompt. -/
theorem c2_failure_policy (debugF inPM : Bool) (pm db : String) (localF remoteF : Bool)
    (parse : String → Option (List D1Result)) (r : SpawnResult) (input sql : String) :
  (∀ e, r.error = some e →
     runSpawn parse r = [Ev.execFailure (FailReason.spawnError e)])
  ∧ (r.error = none → r.status ≠ some 0 →
       runSpawn parse r = [Ev.execFailure (FailReason.nonzeroStatus r.status r.stdout)])
  ∧ (r.error = none → r.status = some 0 → parse r.stdout = none →
       runSpawn parse r = [Ev.execFailure (FailReason.parseError r.stdout)])
  ∧ (handleLine input = ReplCmd.execute sql →
       lineStep debugF inPM pm db localF remoteF parse r input =
         StepOut.prompt (executeSQLEvents debugF inPM pm db localF remoteF parse r sql))
  ∧ (handleLine input ≠ ReplCmd.exit →
       lineStep debugF inPM pm db localF remoteF parse r input ≠ StepOut.terminate) := by
  refine ⟨?_, ?_, ?_, ?_, ?_⟩
  · intro e he; simp [runSpawn, he]
  · intro h1 h2; simp [runSpawn, h1, h2]
  · intro h1 h2 h3; simp [runSpawn, h1, h2, h3]
  · intro h; simp [lineStep, h]
  · intro h
    cases hc : handleLine input with
    | promptOnly => simp [lineStep, hc]
    | exit => exact absurd hc h
    | help => simp [lineStep, hc]
    | execute sql2 => simp [lineStep, hc]

/-- Witness for C2: a nonzero exit status with unparseable output yields
exactly the failure event and the step returns to the prompt. -/
theorem c2_failure_policy_witness :
  runSpawn (fun _ => none) ⟨none, some 1, "boom"⟩ =
    [Ev.execFailure (FailReason.nonzeroStatus (some 1) "boom")]
  ∧ lineStep false false "pnpm" "mydb" false false (fun _ => none)
      ⟨none, some 1, "boom"⟩ "select 1" ≠ StepOut.terminate := by
  constructor
  · exact (c2_failure_policy false false "pnpm" "mydb" false false
      (fun _ => none) ⟨none, some 1, "boom"⟩ "select 1" "select 1").2.1 rfl (by decide)
  · exact (c2_failure_policy false false "pnpm" "mydb" false false
      (fun _ => none) ⟨none, some 1, "boom"⟩ "select 1" "select 1").2.2.2.2 (by decide)

/-- C3: each parsed batch is rendered in array order; a successful batch
prints the success notice, then the row dump when the row-set is present
and non-empty or the no-results notice otherwise, then the meta line only
when the meta mapping is present and non-empty; a failed batch prints the
failure notice with its meta and rendering continues with the next batch. -/
theorem c3_batch_rendering (item : D1Result) (rest : List D1Result)
    (rs : List Row) (m : Meta) :
  (item.success = true → item.results = some rs → item.meta = some m →
     renderItem item =
       [Ev.log "Success"]
         ++ (if rs.length > 0 then [Ev.logRows rs] else [Ev.log "No results returned"])
         ++ (if m.length > 0 then [Ev.logMeta m] else []))
  ∧ (item.success = false →
       renderItem item = [Ev.errLog "Query failed", Ev.errMeta item.meta])
  ∧ renderAll (item :: rest) = renderItem item ++ renderAll rest
  ∧ renderAll ([] : List D1Result) = [] := by
  refine ⟨?_, ?_, rfl, rfl⟩
  · intro hs hr hm
    simp only [renderItem, hs, hr, hm, if_pos]
    by_cases h0 : rs.length > 0
    · have hne : ¬ rs.length = 0 := by omega
      simp [displayResults, h0, hne]
    · simp [h0]
  · intro hs
    simp [renderItem, hs]

/-- Witness for C3 at the two simulated responses of the spec: one
successful batch with one row and empty meta (meta line suppressed), and
one failed batch with an error meta. -/
theorem c3_batch_rendering_witness :
  renderItem ⟨some [], some [[("id", JVal.num 1)]], true⟩ =
    [Ev.log "Success", Ev.logRows [[("id", JVal.num 1)]]]
  ∧ renderItem ⟨some [("error", JVal.str "no such table")], some [], false⟩ =
      [Ev.errLog "Query failed", Ev.errMeta (some [("error", JVal.str "no such table")])]
  ∧ renderAll [⟨some [], some [[("id", JVal.num 1)]], true⟩] =
      renderItem ⟨some [], some [[("id", JVal.num 1)]], true⟩ ++ renderAll [] := by
  refine ⟨?_, ?_, ?_⟩
  · have h := (c3_batch_rendering ⟨some [], some [[("id", JVal.num 1)]], true⟩ []
      [[("id", JVal.num 1)]] []).1 rfl rfl rfl
    simpa using h
  · exact (c3_batch_rendering ⟨some [("error", JVal.str "no such table")], some [], false⟩
      [] [] []).2.1 rfl
  · exact (c3_batch_rendering ⟨some [], some [[("id", JVal.num 1)]], true⟩ [] [] []).2.2.1

/-- C4 counterexample: with the help flag set and no positional argument
the database name is missing, yet the process exits with code 0 showing
the usage text, not with code 1 — the help branch runs before the
missing-name check. -/
theorem c4_startup_counterexample :
  startup true false false [] = StartOutcome.helpShown
  ∧ startExitCode (startup true false false []) = some 0
  ∧ ¬ startExitCode (startup true false false []) = some 1 := by
  decide

/-- C4 amended: provided the help flag is not set, every argument vector
with a missing (or empty) database name, and every argument vector with a
present name and both locality flags, terminates immediately with exit
code 1 and the respective diagnostic before the REPL starts. -/
theorem c4_startup_validation (localF remoteF : Bool) (pos : List String) :
  ((pos = [] ∨ pos.get? 0 = some "") →
     startup false localF remoteF pos = StartOutcome.missingName
     ∧ startExitCode (startup false localF remoteF pos) = some 1
     ∧ startMessage (startup false localF remoteF pos) = some "Database name is required")
  ∧ (∀ db, pos.get? 0 = some db → db ≠ "" → localF = true → remoteF = true →
     startup false localF remoteF pos = StartOutcome.flagConflict
     ∧ startExitCode (startup false localF remoteF pos) = some 1
     ∧ startMessage (startup false localF remoteF pos) =
         some "Cannot use both local and remote flags") := by
  constructor
  · rintro (h | h)
    · subst h
      exact ⟨rfl, rfl, rfl⟩
    · cases pos with
      | nil => simp at h
      | cons d ds =>
        simp at h
        subst h
        exact ⟨rfl, rfl, rfl⟩
  · intro db hdb hne hl hr
    subst hl; subst hr
    cases pos with
    | nil => simp at hdb
    | cons d ds =>
      simp at hdb
      subst hdb
      simp [startup, startExitCode, startMessage, hne]

/-- Witness for the amended C4: a missing name and a local-and-remote
conflict both exit with code 1. -/
theorem c4_startup_validation_witness :
  startup false false false [] = StartOutcome.missingName
  ∧ startup false true true ["mydb"] = StartOutcome.flagConflict
  ∧ startExitCode (startup false true true ["mydb"]) = some 1 := by
  refine ⟨?_, ?_, ?_⟩
  · exact ((c4_startup_validation false false []).1 (Or.inl rfl)).1
  · exact ((c4_startup_validation true true ["mydb"]).2 "mydb" rfl (by decide) rfl rfl).1
  · exact ((c4_startup_validation true true ["mydb"]).2 "mydb" rfl (by decide) rfl rfl).2.1

/-- C5: the .tables dot-command synthesizes and executes exactly the
documented SQL text. -/
theorem c5_tables_command :
  handleLine ".tables" =
    ReplCmd.execute
      "SELECT name FROM sqlite_master WHERE type='table' AND name NOT LIKE 'sqlite_%' ORDER BY name;"
  ∧ tablesSQL =
      "SELECT name FROM sqlite_master WHERE type='table' AND name NOT LIKE 'sqlite_%' ORDER BY name;" := by
  decide

/-- C6: .schema with no (or an empty) argument synthesizes the all-tables
query; .schema with a name substitutes the name literally with no
escaping; consequently, for every name containing a quote character the
produced text is not the well-formed query for that name (the one using
the standard doubled-quote escaping) — the malformed-query limitation of
the spec, read as the produced text failing to be the correctly escaped
query. -/
theorem c6_schema_synthesis (t : String) :
  showSchema none = schemaAllSQL
  ∧ showSchema (some "") = schemaAllSQL
  ∧ schemaAllSQL =
      "SELECT name, sql FROM sqlite_master WHERE type='table' AND name NOT LIKE 'sqlite_%' ORDER BY name;"
  ∧ (t ≠ "" → showSchema (some t) =
       "SELECT sql FROM sqlite_master WHERE type='table' AND name='" ++ t ++ "';")
  ∧ (t ≠ "" → 1 ≤ quoteCount t →
       showSchema (some t) ≠
         "SELECT sql FROM sqlite_master WHERE type='table' AND name='"
           ++ sqlQuoteName t ++ "';") := by
  refine ⟨rfl, rfl, rfl, ?_, ?_⟩
  · intro ht
    simp [showSchema, ht, schemaTableSQL]
  · intro ht hq heq
    have h1 : showSchema (some t) =
        "SELECT sql FROM sqlite_master WHERE type='table' AND name='" ++ t ++ "';" := by
      simp [showSchema, ht, schemaTableSQL]
    rw [h1] at heq
    have h2 := congrArg String.length heq
    rw [String.length_append, String.length_append,
        String.length_append, String.length_append, sqlQuoteName_length] at h2
    omega

/-- Witness for C6: the table name containing one quote character is
substituted verbatim and the result differs from the correctly escaped
query. -/
theorem c6_schema_synthesis_witness :
  showSchema (some "a'b") =
    "SELECT sql FROM sqlite_master WHERE type='table' AND name='" ++ "a'b" ++ "';"
  ∧ showSchema (some "a'b") ≠
      "SELECT sql FROM sqlite_master WHERE type='table' AND name='"
        ++ sqlQuoteName "a'b" ++ "';" := by
  constructor
  · exact (c6_schema_synthesis "a'b").2.2.2.1 (by decide)
  · exact (c6_schema_synthesis "a'b").2.2.2.2 (by decide) (by decide)

theorem findPackageManager_notFound (has : String → String → Bool) (dirs : List String)
    (h : ∀ d ∈ dirs, ∀ f ∈ lockfileNames, has d f = false) :
    findPackageManager has dirs = "npx" := by
  induction dirs with
  | nil => rfl
  | cons d rest ih =>
    have h1 := h d (List.mem_cons_self d rest) "pnpm-lock.yaml" (by simp [lockfileNames])
    have h2 := h d (List.mem_cons_self d rest) "yarn.lock" (by simp [lockfileNames])
    have h3 := h d (List.mem_cons_self d rest) "bun.lock" (by simp [lockfileNames])
    have h4 := h d (List.mem_cons_self d rest) "package-lock.json" (by simp [lockfileNames])
    have h5 := h d (List.mem_cons_self d rest) "deno.lock" (by simp [lockfileNames])
    simp [findPackageManager, h1, h2, h3, h4, h5]
    exact ih (fun d2 hd2 f hf => h d2 (List.mem_cons_of_mem d hd2) f hf)

/-- C7: with the package-manager environment variable set the tool is
invoked directly with no launcher prefix; otherwise the walk tests each
visited directory for the five lockfiles in the order pnpm, yarn, bun,
npm, deno, moves to the parent when none is present, and falls back to
npx when the walk finds nothing; the chosen name maps to the documented
launcher prefixes (the npm lockfile mapping to the npx launcher, npm's
runner for un-installed tools). -/
theorem c7_launcher_selection (pm d : String) (dirs : List String)
    (has : String → String → Bool) :
  launcherArgs true pm = ["wrangler"]
  ∧ ((∀ d2 ∈ d :: dirs, ∀ f ∈ lockfileNames, has d2 f = false) →
       findPackageManager has (d :: dirs) = "npx")
  ∧ findPackageManager has [] = "npx"
  ∧ (has d "pnpm-lock.yaml" = true →
       findPackageManager has (d :: dirs) = "pnpm")
  ∧ (has d "pnpm-lock.yaml" = false → has d "yarn.lock" = true →
       findPackageManager has (d :: dirs) = "yarn")
  ∧ (has d "pnpm-lock.yaml" = false → has d "yarn.lock" = false →
       has d "bun.lock" = true →
       findPackageManager has (d :: dirs) = "bun")
  ∧ (has d "pnpm-lock.yaml" = false → has d "yarn.lock" = false →
       has d "bun.lock" = false → has d "package-lock.json" = true →
       findPackageManager has (d :: dirs) = "npm")
  ∧ (has d "pnpm-lock.yaml" = false → has d "yarn.lock" = false →
       has d "bun.lock" = false → has d "package-lock.json" = false →
       has d "deno.lock" = true →
       findPackageManager has (d :: dirs) = "deno")
  ∧ ((∀ f ∈ lockfileNames, has d f = false) →
       findPackageManager has (d :: dirs) = findPackageManager has dirs)
  ∧ launcherArgs false "pnpm" = ["pnpm", "wrangler"]
  ∧ launcherArgs false "yarn" = ["yarn", "wrangler"]
  ∧ launcherArgs false "bun" = ["bun", "wrangler"]
  ∧ launcherArgs false "npm" = ["npx", "wrangler"]
  ∧ launcherArgs false "deno" = ["deno", "run", "-A", "npm:wrangler"]
  ∧ launcherArgs false "npx" = ["npx", "wrangler"] := by
  refine ⟨rfl, ?_, rfl, ?_, ?_, ?_, ?_, ?_, ?_, ?_, ?_, ?_, ?_, ?_, ?_⟩
  · exact fun h => findPackageManager_notFound has (d :: dirs) h
  · intro h1; simp [findPackageManager, h1]
  · intro h1 h2; simp [findPackageManager, h1, h2]
  · intro h1 h2 h3; simp [findPackageManager, h1, h2, h3]
  · intro h1 h2 h3 h4; simp [findPackageManager, h1, h2, h3, h4]
  · intro h1 h2 h3 h4 h5; simp [findPackageManager, h1, h2, h3, h4, h5]
  · intro h
    have h1 := h "pnpm-lock.yaml" (by simp [lockfileNames])
    have h2 := h "yarn.lock" (by simp [lockfileNames])
    have h3 := h "bun.lock" (by simp [lockfileNames])
    have h4 := h "package-lock.json" (by simp [lockfileNames])
    have h5 := h "deno.lock" (by simp [lockfileNames])
    simp [findPackageManager, h1, h2, h3, h4, h5]
  · decide
  · decide
  · decide
  · decide
  · decide
  · decide

/-- Witness for C7: a yarn lockfile two levels up wins after two skips,
and an empty filesystem falls back to npx. -/
theorem c7_launcher_selection_witness :
  findPackageManager (fun d2 f => d2 == "/w" && f == "yarn.lock") ["/w"] = "yarn"
  ∧ findPackageManager (fun _ _ => false) ["/a/b", "/a"] = "npx" := by
  constructor
  · exact (c7_launcher_selection "x" "/w" []
      (fun d2 f => d2 == "/w" && f == "yarn.lock")).2.2.2.2.1 (by decide) (by decide)
  · exact (c7_launcher_selection "x" "/a/b" ["/a"]
      (fun _ _ => false)).2.1 (by decide)

/-- C8: every input line is trimmed before interpretation and the handler
reads only the trimmed string; a line blank after trimming only redisplays
the prompt; and the dot-commands are recognized on the lowercased trimmed
line, hence case-insensitively. -/
theorem c8_trim_and_case (input s t : String) :
  handleLine input = handleTrimmed (jsTrim input)
  ∧ (jsTrim input = "" → handleLine input = ReplCmd.promptOnly)
  ∧ (jsTrim s = jsTrim t → handleLine s = handleLine t)
  ∧ ((jsToLower (jsTrim input) = ".exit" ∨ jsToLower (jsTrim input) = ".quit") →
       handleLine input = ReplCmd.exit)
  ∧ (jsToLower (jsTrim input) = ".help" → handleLine input = ReplCmd.help)
  ∧ (jsToLower (jsTrim input) = ".tables" → handleLine input = ReplCmd.execute tablesSQL)
  ∧ handleLine ".EXIT" = handleLine ".exit" := by
  refine ⟨rfl, ?_, ?_, ?_, ?_, ?_, by decide⟩
  · intro h
    unfold handleLine
    rw [h]
    rfl
  · intro h
    unfold handleLine
    rw [h]
  · intro h
    unfold handleLine handleTrimmed
    have hne : jsTrim input ≠ "" := by
      intro e
      rw [e] at h
      rcases h with h | h <;> exact absurd h (by decide)
    rw [if_neg hne, if_pos h]
  · intro h
    unfold handleLine handleTrimmed
    have hne : jsTrim input ≠ "" := by
      intro e; rw [e] at h; exact absurd h (by decide)
    have hx : ¬ (jsToLower (jsTrim input) = ".exit" ∨ jsToLower (jsTrim input) = ".quit") := by
      rintro (e | e) <;> rw [h] at e <;> exact absurd e (by decide)
    rw [if_neg hne, if_neg hx, if_pos h]
  · intro h
    unfold handleLine handleTrimmed
    have hne : jsTrim input ≠ "" := by
      intro e; rw [e] at h; exact absurd h (by decide)
    have hx : ¬ (jsToLower (jsTrim input) = ".exit" ∨ jsToLower (jsTrim input) = ".quit") := by
      rintro (e | e) <;> rw [h] at e <;> exact absurd e (by decide)
    have hh : jsToLower (jsTrim input) ≠ ".help" := by
      intro e; rw [h] at e; exact absurd e (by decide)
    rw [if_neg hne, if_neg hx, if_neg hh, if_pos h]

/-- Witness for C8: whitespace-padded and uppercased dot-commands are
recognized and a whitespace-only line only redisplays the prompt. -/
theorem c8_trim_and_case_witness :
  handleLine " .QUIT " = ReplCmd.exit
  ∧ handleLine "   " = ReplCmd.promptOnly
  ∧ handleLine "  .Tables" = ReplCmd.execute tablesSQL := by
  refine ⟨?_, ?_, ?_⟩
  · exact (c8_trim_and_case " .QUIT " "" "").2.2.2.1 (Or.inr (by decide))
  · exact (c8_trim_and_case "   " "" "").2.1 (by decide)
  · exact (c8_trim_and_case "  .Tables" "" "").2.2.2.2.2.1 (by decide)

/-- C9: any trimmed line whose lowercased form starts with .schema is
handled as a schema command (never forwarded as SQL), with the argument
taken as element 1 of the split of the original case-preserving trimmed
line on single spaces; a line like .schemathing is a schema command with
no argument, two consecutive spaces give the empty argument and thus the
all-tables query, and the argument keeps its original case. -/
theorem c9_schema_prefix_dispatch (input : String) :
  (jsStartsWith (jsToLower (jsTrim input)) ".schema" = true →
     handleLine input =
       ReplCmd.execute (showSchema ((jsSplitSpace (jsTrim input)).get? 1)))
  ∧ handleLine ".schemathing" = ReplCmd.execute schemaAllSQL
  ∧ handleLine ".schema  foo" = ReplCmd.execute schemaAllSQL
  ∧ (jsSplitSpace ".schema  foo").get? 1 = some ""
  ∧ handleLine ".SCHEMA Foo" = ReplCmd.execute (schemaTableSQL "Foo") := by
  refine ⟨?_, by decide, by decide, by decide, by decide⟩
  intro h
  have hne : jsTrim input ≠ "" := by
    intro e; rw [e] at h; exact absurd h (by decide)
  have hx : ¬ (jsToLower (jsTrim input) = ".exit" ∨ jsToLower (jsTrim input) = ".quit") := by
    rintro (e | e) <;> rw [e] at h <;> exact absurd h (by decide)
  have hh : jsToLower (jsTrim input) ≠ ".help" := by
    intro e; rw [e] at h; exact absurd h (by decide)
  have ht : jsToLower (jsTrim input) ≠ ".tables" := by
    intro e; rw [e] at h; exact absurd h (by decide)
  unfold handleLine handleTrimmed
  rw [if_neg hne, if_neg hx, if_neg hh, if_neg ht, if_pos h]

/-- Witness for C9: a concrete mixed-case schema command keeps the
argument case and is not forwarded as SQL. -/
theorem c9_schema_prefix_dispatch_witness :
  handleLine ".SCHEMA MyTable" =
    ReplCmd.execute (showSchema ((jsSplitSpace (jsTrim ".SCHEMA MyTable")).get? 1))
  ∧ handleLine ".SCHEMA MyTable" = ReplCmd.execute (schemaTableSQL "MyTable") := by
  constructor
  · exact (c9_schema_prefix_dispatch ".SCHEMA MyTable").1 (by decide)
  · exact ((c9_schema_prefix_dispatch ".SCHEMA MyTable").1 (by decide)).trans (by decide)

/-- C10: the help flag takes precedence over startup validation: whenever
it is set the outcome is the usage text and exit code 0, for every
combination of locality flags and positionals, including a missing
database name and conflicting flags. -/
theorem c10_help_precedence (localF remoteF : Bool) (pos : List String) :
  startup true localF remoteF pos = StartOutcome.helpShown
  ∧ startExitCode (startup true localF remoteF pos) = some 0
  ∧ startMessage (startup true localF remoteF pos) = some usageText := by
  exact ⟨rfl, rfl, rfl⟩
